import Mathlib

/-!
Verification development for the getdns node binding (GNContext.cpp).

The file embeds, as Lean functions, the configuration-dispatch, option-setter,
transaction-issuance, completion-callback and cancellation logic of
GNContext.cpp.  External collaborators (the getdns engine, libc inet_pton,
the V8 value model) are modelled through their documented contracts; the
control flow and data flow of the binding itself follow the C++ source
line by line.  One semantic point is embedded faithfully and matters below:
NanThrowTypeError / NanThrowError in the nan layer used by this source only
records a pending JavaScript exception and returns to the C++ caller, so
statements after a throw still execute; the model therefore accumulates
thrown messages in a list while execution continues.
-/

set_option autoImplicit false

namespace GN

/-! ### Engine constants (values from the getdns public header) -/

def GETDNS_RETURN_GOOD : Nat := 0
def GETDNS_RETURN_GENERIC_ERROR : Nat := 1
def GETDNS_RETURN_INVALID_PARAMETER : Nat := 311
def GETDNS_CALLBACK_COMPLETE : Nat := 700
def GETDNS_RESOLUTION_STUB : Nat := 520
def GETDNS_RESOLUTION_RECURSING : Nat := 521
def GETDNS_EXTENSION_TRUE : Nat := 1000
def GETDNS_EXTENSION_FALSE : Nat := 1001

/-! ### Host (V8) values -/

/-- Model of a V8 JavaScript value as seen by the binding.  Objects are only
ever created by the binding through makeErrorObj, so a dedicated constructor
carrying the msg/code fields models that shape. -/
inductive HVal where
  | hNull
  | hUndefined
  | hBool (b : Bool)
  | hNum (n : Nat)
  | hStr (s : String)
  | hArr (elems : List HVal)
  | hBuf (bytes : List Nat)
  | hFunc (id : Nat)
  | hErrObj (msg : String) (code : Nat)
deriving Repr

/-- V8 Value::IsNumber. -/
def isNumber : HVal → Bool
  | .hNum _ => true
  | _ => false

/-- V8 Value::IsArray. -/
def isArray : HVal → Bool
  | .hArr _ => true
  | _ => false

/-- V8 Value::IsFunction. -/
def isFunction : HVal → Bool
  | .hFunc _ => true
  | _ => false

/-- V8 Value::IsTrue: true exactly for the boolean true value (not truthiness). -/
def isTrue : HVal → Bool
  | .hBool b => b
  | _ => false

/-- V8 Value::IsObject (arrays, buffers, functions and plain objects are objects). -/
def isObject : HVal → Bool
  | .hArr _ => true
  | .hBuf _ => true
  | .hFunc _ => true
  | .hErrObj _ _ => true
  | _ => false

/-- V8 Value::Uint32Value.  The binding only ever calls it on values it has
checked with IsNumber, so only the number case is meaningful; numbers are
modelled as naturals and reduced modulo 2^32 as ToUint32 prescribes. -/
def uint32Value : HVal → Nat
  | .hNum n => n % 2 ^ 32
  | _ => 0

mutual
/-- Models V8 ToString for the values the binding converts to text (the
string fed to the address parsers and to error messages). -/
def toStringH : HVal → String
  | .hNull => "null"
  | .hUndefined => "undefined"
  | .hBool true => "true"
  | .hBool false => "false"
  | .hNum n => toString n
  | .hStr s => s
  | .hArr es => toStringArr es
  | .hBuf _ => "[object Buffer]"
  | .hFunc _ => "function"
  | .hErrObj _ _ => "[object Object]"

/-- V8 array ToString joins the rendered elements with commas. -/
def toStringArr : List HVal → String
  | [] => ""
  | [e] => toStringH e
  | e :: e2 :: es => toStringH e ++ "," ++ toStringArr (e2 :: es)
end

/-- Handle<Value> argument access, args[i]; out-of-range indices yield
undefined, as in V8. -/
def argGet (args : List HVal) (i : Nat) : HVal :=
  (args.get? i).getD .hUndefined

/-- makeErrorObj (GNContext.cpp line 55): an object with msg and code fields. -/
def makeErrorObj (msg : String) (code : Nat) : HVal :=
  .hErrObj msg code

/-! ### Engine structured values (getdns dicts) -/

/-- Model of a getdns structured value; dicts are ordered association lists. -/
inductive GVal where
  | gStr (s : String)
  | gInt (n : Nat)
  | gBindata (bytes : List Nat)
  | gDict (entries : List (String × GVal))
  | gList (items : List GVal)
deriving Repr

abbrev GDict := List (String × GVal)

/-- getdns_dict_set_* semantics: replace the value at an existing key, else
append the new entry at the end. -/
def dictSet (d : GDict) (k : String) (v : GVal) : GDict :=
  if d.any (fun p => p.1 = k) then
    d.map (fun p => if p.1 = k then (k, v) else p)
  else
    d ++ [(k, v)]

/-- First value stored under a key, if any. -/
def dictGet (d : GDict) (k : String) : Option GVal :=
  (d.find? (fun p => p.1 = k)).map Prod.snd

/-! ### Address parsing (libc inet_pton, an external collaborator) -/

/-- Model of libc inet_pton for the two families the binding uses.  A parser
returns the raw bytes written into the caller's buffer on success.  Its
documented contract (captured as hypotheses where needed) is that AF_INET
success writes exactly 4 bytes and AF_INET6 success exactly 16. -/
structure AddrParser where
  pton4 : String → Option (List Nat)
  pton6 : String → Option (List Nat)

/-- The inet_pton contract on byte counts. -/
def AddrParser.WF (P : AddrParser) : Prop :=
  (∀ s b, P.pton4 s = some b → b.length = 4) ∧
  (∀ s b, P.pton6 s = some b → b.length = 16)

/-- getdns_util_create_ip (GNContext.cpp lines 64-105): try IPv4 first, then
IPv6; on success build the address dict; a string matching neither yields no
dict.  The engine dict primitives are modelled as infallible (their only C
failure mode is allocation exhaustion). -/
def getdns_util_create_ip (P : AddrParser) (ip : String) : Option GDict :=
  match P.pton4 ip with
  | some bytes =>
      some (dictSet (dictSet [] "address_type" (.gStr "IPv4")) "address_data" (.gBindata bytes))
  | none =>
      match P.pton6 ip with
      | some bytes =>
          some (dictSet (dictSet [] "address_type" (.gStr "IPv6")) "address_data" (.gBindata bytes))
      | none => none

/-- Conversion of one element of the upstream list (GNContext.cpp lines
138-156): an array element is an (address, port) tuple whose first entry is
rendered to text and parsed, and whose numeric second entry, if present, is
attached under the port key; any other element is rendered to text and
parsed directly. -/
def upstreamElemToDict (P : AddrParser) (v : HVal) : Option GDict :=
  match v with
  | .hArr [] => none
  | .hArr (a0 :: rest) =>
      match getdns_util_create_ip P (toStringH a0) with
      | some d =>
          match rest with
          | a1 :: _ =>
              if isNumber a1 then
                some (dictSet d "port" (.gInt (uint32Value a1)))
              else
                some d
          | [] => some d
      | none => none
  | _ => getdns_util_create_ip P (toStringH v)

/-! ### Engine context and its setter primitives -/

/-- Observable configuration state of a getdns engine context; none means the
corresponding setting has never been applied. -/
structure EngineCtx where
  upstreams : Option (List GDict) := none
  resolutionType : Option Nat := none
  dnsTransport : Option Nat := none
  timeoutMs : Option Nat := none
  useThreads : Option Nat := none
  returnDnssecStatus : Option Nat := none
  ednsExtendedRcode : Option Nat := none
  ednsVersion : Option Nat := none
  ednsDoBit : Option Nat := none
  limitOutstandingQueries : Option Nat := none
  ednsMaximumUdpPayloadSize : Option Nat := none
deriving Repr

def EngineCtx.init : EngineCtx := {}

/-- One invocation of an engine configuration setter, with the value that
crossed the boundary. -/
inductive EngineCall where
  | setResolutionType (n : Nat)
  | setDnsTransport (n : Nat)
  | setUpstreamList (l : List GDict)
  | setTimeout (n : Nat)
  | setUseThreads (n : Nat)
  | setReturnDnssecStatus (n : Nat)
  | setEdnsExtendedRcode (n : Nat)
  | setEdnsVersion (n : Nat)
  | setEdnsDoBit (n : Nat)
  | setLimitOutstandingQueries (n : Nat)
  | setEdnsMaximumUdpPayloadSize (n : Nat)
deriving Repr

/-- Result of running one option setter: the engine context afterwards, the
engine setter invocations made, and the messages of the JavaScript exceptions
raised (a nan throw records the exception and execution continues). -/
structure SetterResult where
  ctx : EngineCtx
  calls : List EngineCall
  thrown : List String
deriving Repr

/-- getdns_context_set_upstream_recursive_servers, modelled from the engine
contract: a non-empty list whose entries all carry address_data is installed
and replaces the previous upstream list; anything else is rejected and the
context is left unchanged. -/
def set_upstream_recursive_servers (ctx : EngineCtx) (l : List GDict) : Nat × EngineCtx :=
  if !l.isEmpty && l.all (fun d => (dictGet d "address_data").isSome) then
    (GETDNS_RETURN_GOOD, { ctx with upstreams := some l })
  else
    (GETDNS_RETURN_GENERIC_ERROR, ctx)

/-! ### Option setters (GNContext.cpp lines 111-190) -/

def setTransport (ctx : EngineCtx) (opt : HVal) : SetterResult :=
  if isNumber opt then
    let n := uint32Value opt
    ⟨{ ctx with dnsTransport := some n }, [.setDnsTransport n], []⟩
  else ⟨ctx, [], []⟩

def setStub (ctx : EngineCtx) (opt : HVal) : SetterResult :=
  if isTrue opt then
    ⟨{ ctx with resolutionType := some GETDNS_RESOLUTION_STUB },
      [.setResolutionType GETDNS_RESOLUTION_STUB], []⟩
  else
    ⟨{ ctx with resolutionType := some GETDNS_RESOLUTION_RECURSING },
      [.setResolutionType GETDNS_RESOLUTION_RECURSING], []⟩

def setResolutionType (ctx : EngineCtx) (opt : HVal) : SetterResult :=
  if isNumber opt then
    let n := uint32Value opt
    ⟨{ ctx with resolutionType := some n }, [.setResolutionType n], []⟩
  else ⟨ctx, [], []⟩

/-- setUpstreams (GNContext.cpp lines 133-173).  The loop accumulates the
dicts of the elements that parse and, for each element that does not, records
a thrown type error naming the element; the nan throw does not abort the
loop, and the engine commit after the loop runs unconditionally with the
accumulated list. -/
def setUpstreams (P : AddrParser) (ctx : EngineCtx) (opt : HVal) : SetterResult :=
  match opt with
  | .hArr values =>
      let acc := values.foldl
        (fun (acc : List GDict × List String) v =>
          match upstreamElemToDict P v with
          | some d => (acc.1 ++ [d], acc.2)
          | none => (acc.1, acc.2 ++ ["Upstream value is invalid: " ++ toStringH v]))
        ([], [])
      let commit := set_upstream_recursive_servers ctx acc.1
      if commit.1 = GETDNS_RETURN_GOOD then
        ⟨commit.2, [.setUpstreamList acc.1], acc.2⟩
      else
        ⟨commit.2, [.setUpstreamList acc.1], acc.2 ++ ["Failed to set upstreams."]⟩
  | _ => ⟨ctx, [], []⟩

def setTimeout (ctx : EngineCtx) (opt : HVal) : SetterResult :=
  if isNumber opt then
    let n := uint32Value opt
    ⟨{ ctx with timeoutMs := some n }, [.setTimeout n], []⟩
  else ⟨ctx, [], []⟩

def setUseThreads (ctx : EngineCtx) (opt : HVal) : SetterResult :=
  let v := if isTrue opt then 1 else 0
  ⟨{ ctx with useThreads := some v }, [.setUseThreads v], []⟩

def setReturnDnssecStatus (ctx : EngineCtx) (opt : HVal) : SetterResult :=
  let v := if isTrue opt then GETDNS_EXTENSION_TRUE else GETDNS_EXTENSION_FALSE
  ⟨{ ctx with returnDnssecStatus := some v }, [.setReturnDnssecStatus v], []⟩

/-! ### The three dispatch tables (GNContext.cpp lines 198-234) -/

def SETTERS (P : AddrParser) : List (String × (EngineCtx → HVal → SetterResult)) :=
  [ ("stub", setStub),
    ("upstreams", setUpstreams P),
    ("upstream_recursive_servers", setUpstreams P),
    ("timeout", setTimeout),
    ("use_threads", setUseThreads),
    ("return_dnssec_status", setReturnDnssecStatus),
    ("dns_transport", setTransport),
    ("resolution_type", setResolutionType) ]

def UINT8_OPTION_SETTERS : List (String × (EngineCtx → Nat → SetterResult)) :=
  [ ("edns_extended_rcode", fun c n =>
       ⟨{ c with ednsExtendedRcode := some n }, [.setEdnsExtendedRcode n], []⟩),
    ("edns_version", fun c n =>
       ⟨{ c with ednsVersion := some n }, [.setEdnsVersion n], []⟩),
    ("edns_do_bit", fun c n =>
       ⟨{ c with ednsDoBit := some n }, [.setEdnsDoBit n], []⟩) ]

def UINT16_OPTION_SETTERS : List (String × (EngineCtx → Nat → SetterResult)) :=
  [ ("limit_outstanding_queries", fun c n =>
       ⟨{ c with limitOutstandingQueries := some n }, [.setLimitOutstandingQueries n], []⟩),
    ("edns_maximum_udp_payloadSize", fun c n =>
       ⟨{ c with ednsMaximumUdpPayloadSize := some n }, [.setEdnsMaximumUdpPayloadSize n], []⟩) ]

/-- The strcmp walk over a table with a found flag and break: the first entry
whose name matches wins. -/
def findSetter {α : Type} : List (String × α) → String → Option α
  | [], _ => none
  | (k, v) :: rest, name => if k = name then some v else findSetter rest name

/-- SetContextValue (GNContext.cpp lines 242-275): walk the generic table
first and stop on a match; only for numeric values walk the 8-bit table and
then the 16-bit table, truncating the unsigned 32-bit value to the target
width; no match at all is a silent no-op. -/
def setContextValue (P : AddrParser) (ctx : EngineCtx) (name : String) (value : HVal) :
    SetterResult :=
  match findSetter (SETTERS P) name with
  | some setter => setter ctx value
  | none =>
      if !isNumber value then ⟨ctx, [], []⟩
      else
        match findSetter UINT8_OPTION_SETTERS name with
        | some s8 => s8 ctx (uint32Value value % 2 ^ 8)
        | none =>
            match findSetter UINT16_OPTION_SETTERS name with
            | some s16 => s16 ctx (uint32Value value % 2 ^ 16)
            | none => ⟨ctx, [], []⟩

/-! ### Transaction identifiers as byte buffers -/

/-- Modelled from the spec: GNUtil convertToBuffer (repository code outside
src), described as a raw fixed-size byte copy of the 64-bit identifier's
in-memory representation — here the size least-significant-first bytes of the
identifier. -/
def convertToBuffer (n : Nat) (size : Nat) : List Nat :=
  (List.range size).map (fun i => n / 256 ^ i % 256)

/-- The memcpy of an 8-byte buffer into a uint64_t in Cancel, with the same
byte order as convertToBuffer. -/
def bytesToId (bs : List Nat) : Nat :=
  bs.foldr (fun b acc => b % 256 + 256 * acc) 0

/-- node::Buffer::Length: the byte length of a buffer, 0 for non-buffers. -/
def bufLength : HVal → Nat
  | .hBuf bs => bs.length
  | _ => 0

/-! ### Context wrapper state and lifecycle events -/

/-- The wrapper object's engine handle (the context_ member); none models the
NULL pointer left behind by Destroy or a failed construction. -/
structure GNCtxState where
  handle : Option EngineCtx
deriving Repr

/-- Observable events of the issuance/completion machinery: the reference
count moves on the wrapper, the engine request call, the teardown of the
CallbackData record (its NanCallback, the Unref, the record itself), the
destruction of the engine-owned response dict, and invocations of the host
callback with their exact argument lists. -/
inductive Ev where
  | refCtx
  | engineIssue (name : String) (qtype : Nat) (ext : Option HVal)
  | engineAddress (name : String) (ext : Option HVal)
  | engineService (name : String) (ext : Option HVal)
  | engineHostname (ip : GDict) (ext : Option HVal)
  | engineDestroyCtx
  | freeCallback
  | unref
  | freeData
  | freeResponse
  | callHost (args : List HVal)
deriving Repr

/-- Result of one call to Lookup: the event trace, the value returned to the
caller (some buffer bytes, or none for undefined), and the pending exception
messages raised during the call. -/
structure LookupResult where
  events : List Ev
  ret : Option (List Nat)
  thrown : List String
deriving Repr

/-- GNContext::Destroy (GNContext.cpp lines 345-354): destroy the engine
handle (a no-op inside the engine when the handle is already NULL), null the
member, return true. -/
def destroy (st : GNCtxState) : GNCtxState × List Ev × Bool :=
  (⟨none⟩, (match st.handle with
            | some _ => [Ev.engineDestroyCtx]
            | none => []), true)

/-- GNContext::Lookup (GNContext.cpp lines 448-508).  The engine's verdict on
the issued request is a parameter: engineR is the status returned by
getdns_general and transId the identifier it assigns on success.  Nan throws
record a pending exception and execution continues, exactly as in the C++. -/
def lookup (st : GNCtxState) (args : List HVal) (engineR : Nat) (transId : Nat) :
    LookupResult :=
  let thrown0 := if args.length < 3 then ["At least 3 arguments are required."] else []
  let last := argGet args (args.length - 1)
  let thrown1 := thrown0 ++
    (if !isFunction last then ["Final argument must be a function."] else [])
  match st.handle with
  | none =>
      ⟨[.callHost [makeErrorObj "Context is invalid" GETDNS_RETURN_GENERIC_ERROR]],
        none, thrown1⟩
  | some _ =>
      let name := toStringH (argGet args 0)
      if !isNumber (argGet args 1) then
        ⟨[.callHost [makeErrorObj "Second argument must be a number" GETDNS_RETURN_INVALID_PARAMETER]],
          none, thrown1⟩
      else
        let qtype := uint32Value (argGet args 1) % 2 ^ 16
        let ext := if args.length > 3 && isObject (argGet args 2) then some (argGet args 2)
                   else none
        if engineR ≠ GETDNS_RETURN_GOOD then
          ⟨[.refCtx, .engineIssue name qtype ext,
             .freeCallback, .unref, .freeData,
             .callHost [makeErrorObj "Error issuing query" engineR]],
            none, thrown1⟩
        else
          ⟨[.refCtx, .engineIssue name qtype ext],
            some (convertToBuffer transId 8), thrown1⟩

/-- The LookupType enum distinguishing the helper entry points. -/
def GNAddress : Nat := 0
def GNHostname : Nat := 1
def GNService : Nat := 2

/-- Shared tail of HelperLookup after the engine request call with status r:
rejection tears the CallbackData down and fires the error callback, success
returns the identifier as an 8-byte buffer. -/
def helperFinish (issueEv : List Ev) (r : Nat) (transId : Nat) (thrown : List String) :
    LookupResult :=
  if r ≠ GETDNS_RETURN_GOOD then
    ⟨[Ev.refCtx] ++ issueEv ++
       [.freeCallback, .unref, .freeData,
        .callHost [makeErrorObj "Error issuing query" r]],
      none, thrown⟩
  else
    ⟨[Ev.refCtx] ++ issueEv, some (convertToBuffer transId 8), thrown⟩

/-- GNContext::HelperLookup (GNContext.cpp lines 511-585), the shared body of
getAddress / getHostname / getService, distinguished by funcType: address for
GNAddress, service for GNService, and everything else is the hostname path,
which first converts the name to an address dict and produces a generic error
without contacting the engine when that fails. -/
def helperLookup (P : AddrParser) (funcType : Nat) (st : GNCtxState) (args : List HVal)
    (engineR : Nat) (transId : Nat) : LookupResult :=
  let thrown0 := if args.length < 2 then ["At least 2 arguments are required."] else []
  let last := argGet args (args.length - 1)
  let thrown1 := thrown0 ++
    (if !isFunction last then ["Final argument must be a function."] else [])
  match st.handle with
  | none =>
      ⟨[.callHost [makeErrorObj "Context is invalid" GETDNS_RETURN_GENERIC_ERROR]],
        none, thrown1⟩
  | some _ =>
      let name := toStringH (argGet args 0)
      let ext := if args.length > 2 && isObject (argGet args 1) then some (argGet args 1)
                 else none
      if funcType = GNAddress then
        helperFinish [.engineAddress name ext] engineR transId thrown1
      else if funcType = GNService then
        helperFinish [.engineService name ext] engineR transId thrown1
      else
        match getdns_util_create_ip P name with
        | some ip => helperFinish [.engineHostname ip ext] engineR transId thrown1
        | none => helperFinish [] GETDNS_RETURN_GENERIC_ERROR transId thrown1

/-- GNContext::Callback (GNContext.cpp lines 399-426), the completion handler
the engine fires once per accepted transaction.  convert models
GNUtil::convertToJSObj applied to the engine response.  On the success kind
the response dict is destroyed right after conversion; in every kind the host
callback receives exactly three arguments and the CallbackData record is torn
down afterwards. -/
def gnCallback (convert : Option GVal → HVal) (cbType : Nat) (response : Option GVal)
    (transId : Nat) : List Ev :=
  if cbType = GETDNS_CALLBACK_COMPLETE then
    [.freeResponse,
     .callHost [.hNull, convert response, .hBuf (convertToBuffer transId 8)],
     .unref, .freeCallback, .freeData]
  else
    [.callHost [makeErrorObj "Lookup failed." cbType, .hNull,
                .hBuf (convertToBuffer transId 8)],
     .unref, .freeCallback, .freeData]

/-- Result of one call to Cancel: the boolean returned and the identifier
forwarded to the engine's cancellation primitive, if the engine was contacted
at all. -/
structure CancelResult where
  ret : Bool
  engineCancelArg : Option Nat
deriving Repr, DecidableEq

/-- GNContext::Cancel (GNContext.cpp lines 429-445): invalid context, missing
argument or a buffer whose length is not exactly 8 short-circuit to false
without contacting the engine; otherwise the 64-bit identifier is copied out
of the buffer and forwarded, and the result is true exactly when the engine
reports success.  engineCancel is the engine's getdns_cancel_callback
verdict. -/
def cancel (st : GNCtxState) (args : List HVal) (engineCancel : Nat → Nat) : CancelResult :=
  match st.handle with
  | none => ⟨false, none⟩
  | some _ =>
      if args.length < 1 then ⟨false, none⟩
      else if bufLength (argGet args 0) ≠ 8 then ⟨false, none⟩
      else
        match argGet args 0 with
        | .hBuf bs =>
            let tid := bytesToId bs
            ⟨engineCancel tid == GETDNS_RETURN_GOOD, some tid⟩
        | _ => ⟨false, none⟩

/-! ### Trace helpers -/

def Ev.isCallHost : Ev → Bool
  | .callHost _ => true
  | _ => false

def Ev.isFreeData : Ev → Bool
  | .freeData => true
  | _ => false

def Ev.isFreeCallback : Ev → Bool
  | .freeCallback => true
  | _ => false

def Ev.isUnref : Ev → Bool
  | .unref => true
  | _ => false

def Ev.isRefCtx : Ev → Bool
  | .refCtx => true
  | _ => false

def Ev.isEngineIssue : Ev → Bool
  | .engineIssue _ _ _ => true
  | _ => false

/-- Number of events matching a predicate. -/
def countEv (p : Ev → Bool) (evs : List Ev) : Nat :=
  (evs.filter p).length

/-- The argument lists of the host-callback invocations in a trace, in
order. -/
def hostCallArgLists (evs : List Ev) : List (List HVal) :=
  evs.foldr (fun e acc => match e with
    | .callHost args => args :: acc
    | _ => acc) []

/-- The arities of the host-callback invocations in a trace. -/
def hostCallArities (evs : List Ev) : List Nat :=
  (hostCallArgLists evs).map List.length

/-- The query-type codes forwarded to the engine in a trace. -/
def engineIssueTypes (evs : List Ev) : List Nat :=
  evs.foldr (fun e acc => match e with
    | .engineIssue _ qtype _ => qtype :: acc
    | _ => acc) []

/-- The raw address bytes of each configured upstream, an observation of the
context usable for concrete comparisons. -/
def upstreamData (c : EngineCtx) : Option (List (List Nat)) :=
  c.upstreams.map (fun l => l.map (fun d =>
    match dictGet d "address_data" with
    | some (.gBindata bs) => bs
    | _ => []))

/-! ### Concrete fixtures for evaluation -/

/-- A concrete address-parser instance: one known IPv4 literal and one known
IPv6 literal. -/
def P0 : AddrParser where
  pton4 := fun s => if s = "1.2.3.4" then some [1, 2, 3, 4] else none
  pton6 := fun s =>
    if s = "::1" then some [0, 0, 0, 0, 0, 0, 0, 0, 0, 0, 0, 0, 0, 0, 0, 1] else none

/-- An engine context carrying a previously configured upstream list (the
single address 9.9.9.9). -/
def ctx0 : EngineCtx :=
  { upstreams := some [[("address_type", GVal.gStr "IPv4"),
                        ("address_data", GVal.gBindata [9, 9, 9, 9])]] }

/-! ### Theorems -/

/-- C1: the claim states that a malformed element in the upstream list makes
the whole list-setting operation fail with a type error naming the element
and leaves the previously configured upstream list unchanged, committing no
list built from the valid subset.  Evaluating the embedded setUpstreams at
upstreams = ["1.2.3.4", "not-an-ip"] on a context previously configured with
9.9.9.9 shows the type error is indeed raised naming the element, but the
loop continues past the nan throw and the unconditional engine commit after
the loop installs the list built from the valid element, replacing the
previous configuration: a partial commit the claim rules out. -/
theorem c1_partial_commit_at_failing_input :
    (setUpstreams P0 ctx0 (.hArr [.hStr "1.2.3.4", .hStr "not-an-ip"])).thrown =
      ["Upstream value is invalid: not-an-ip"] ∧
    upstreamData (setUpstreams P0 ctx0 (.hArr [.hStr "1.2.3.4", .hStr "not-an-ip"])).ctx =
      some [[1, 2, 3, 4]] ∧
    upstreamData ctx0 = some [[9, 9, 9, 9]] ∧
    upstreamData (setUpstreams P0 ctx0 (.hArr [.hStr "1.2.3.4", .hStr "not-an-ip"])).ctx ≠
      upstreamData ctx0 := by
  refine ⟨rfl, rfl, rfl, ?_⟩
  decide

/-- C3 counterexample: the claim states every host-callback invocation
receives exactly three arguments.  The synchronous issuance-rejection
delivery in Lookup passes a single argument, the error object. -/
theorem c3_sync_delivery_single_argument :
    hostCallArgLists (lookup ⟨some EngineCtx.init⟩
        [HVal.hStr "example.com", HVal.hNum 1, HVal.hFunc 0] 1 0).events =
      [[makeErrorObj "Error issuing query" 1]] ∧
    hostCallArities (lookup ⟨some EngineCtx.init⟩
        [HVal.hStr "example.com", HVal.hNum 1, HVal.hFunc 0] 1 0).events = [1] ∧
    ¬ (∀ a ∈ hostCallArities (lookup ⟨some EngineCtx.init⟩
        [HVal.hStr "example.com", HVal.hNum 1, HVal.hFunc 0] 1 0).events, a = 3) := by
  refine ⟨rfl, rfl, ?_⟩
  decide

/-- C4 counterexample: the claim states that after destroy every lookup call
with a callable final argument delivers the ContextInvalid error to the
callback rather than throwing.  A destroyed-context lookup call with a single
callable argument does deliver the ContextInvalid error, but the arity check
has already raised a pending TypeError which the nan throw does not suppress,
so the call also throws. -/
theorem c4_short_call_delivers_and_throws :
    isFunction (argGet [HVal.hFunc 0] ([HVal.hFunc 0].length - 1)) = true ∧
    (lookup ⟨none⟩ [HVal.hFunc 0] 0 0).thrown = ["At least 3 arguments are required."] ∧
    hostCallArgLists (lookup ⟨none⟩ [HVal.hFunc 0] 0 0).events =
      [[makeErrorObj "Context is invalid" GETDNS_RETURN_GENERIC_ERROR]] :=
  ⟨rfl, rfl, rfl⟩

/-- C6 counterexample: the claim states endpoint-list and boolean options
raise a type error on malformed input.  A non-array value for the
endpoint-list option is a silent no-op (no engine call, no context change, no
error), and a non-boolean value for the boolean stub option raises nothing
and simply selects the default (recursing) state. -/
theorem c6_malformed_shapes_do_not_raise :
    setContextValue P0 ctx0 "upstreams" (HVal.hNum 5) = ⟨ctx0, [], []⟩ ∧
    (setContextValue P0 EngineCtx.init "stub" (HVal.hStr "yes")).thrown = [] ∧
    (setContextValue P0 EngineCtx.init "stub" (HVal.hStr "yes")).calls =
      [.setResolutionType GETDNS_RESOLUTION_RECURSING] :=
  ⟨rfl, rfl, rfl⟩

/-- C2: for every issued request the CallbackData record (host callback plus
strong context reference) is torn down exactly once.  On issuance rejection
the callback, the Unref and the record free each happen exactly once, all
before the single error-callback invocation; on acceptance the full
lifecycle, issuance followed by the engine firing the completion handler
once, performs each teardown step exactly once and invokes the host callback
exactly once, for the success completion kind and every failure kind
alike. -/
theorem c2_pending_callback_released_exactly_once
    (e : EngineCtx) (args : List HVal) (engineR transId cbType : Nat)
    (convert : Option GVal → HVal) (response : Option GVal)
    (hnum : isNumber (argGet args 1) = true) :
    (engineR ≠ GETDNS_RETURN_GOOD →
      countEv Ev.isFreeData (lookup ⟨some e⟩ args engineR transId).events = 1 ∧
      countEv Ev.isFreeCallback (lookup ⟨some e⟩ args engineR transId).events = 1 ∧
      countEv Ev.isUnref (lookup ⟨some e⟩ args engineR transId).events = 1 ∧
      countEv Ev.isCallHost (lookup ⟨some e⟩ args engineR transId).events = 1 ∧
      countEv Ev.isFreeData
        ((lookup ⟨some e⟩ args engineR transId).events.takeWhile
          (fun ev => !ev.isCallHost)) = 1 ∧
      countEv Ev.isUnref
        ((lookup ⟨some e⟩ args engineR transId).events.takeWhile
          (fun ev => !ev.isCallHost)) = 1) ∧
    (engineR = GETDNS_RETURN_GOOD →
      countEv Ev.isFreeData ((lookup ⟨some e⟩ args engineR transId).events ++
        gnCallback convert cbType response transId) = 1 ∧
      countEv Ev.isFreeCallback ((lookup ⟨some e⟩ args engineR transId).events ++
        gnCallback convert cbType response transId) = 1 ∧
      countEv Ev.isUnref ((lookup ⟨some e⟩ args engineR transId).events ++
        gnCallback convert cbType response transId) = 1 ∧
      countEv Ev.isCallHost ((lookup ⟨some e⟩ args engineR transId).events ++
        gnCallback convert cbType response transId) = 1) := by
  constructor
  · intro hr
    simp [lookup, hnum, hr, countEv, List.filter, List.takeWhile,
      Ev.isFreeData, Ev.isFreeCallback, Ev.isUnref, Ev.isCallHost]
  · intro hr
    subst hr
    by_cases hc : cbType = GETDNS_CALLBACK_COMPLETE <;>
      simp [lookup, gnCallback, hnum, hc, countEv, List.filter,
        Ev.isFreeData, Ev.isFreeCallback, Ev.isUnref, Ev.isCallHost]

/-- C2 witness: the hypotheses hold and the teardown counts are 1 at a
concrete rejected issuance. -/
theorem c2_witness :
    isNumber (argGet [HVal.hStr "example.com", HVal.hNum 1, HVal.hFunc 0] 1) = true ∧
    countEv Ev.isFreeData (lookup ⟨some EngineCtx.init⟩
      [HVal.hStr "example.com", HVal.hNum 1, HVal.hFunc 0] 1 0).events = 1 :=
  ⟨rfl, (((c2_pending_callback_released_exactly_once EngineCtx.init
      [HVal.hStr "example.com", HVal.hNum 1, HVal.hFunc 0] 1 0
      GETDNS_CALLBACK_COMPLETE (fun _ => HVal.hNull) none rfl).1 (by decide)).1)⟩

/-- C3 amended: asynchronous engine-completion deliveries receive exactly
three arguments in the fixed order error-or-null, result-or-null,
transaction-id-as-8-byte-buffer — on the success kind the error slot is null
and the result is the converted response, on every other kind the error slot
is the synthesized error and the result slot is null; synchronous deliveries
from Lookup (invalid context, bad argument, issuance rejection) instead pass
a single argument, the error object. -/
theorem c3_callback_argument_shapes
    (convert : Option GVal → HVal) (cbType : Nat) (response : Option GVal) (transId : Nat)
    (st : GNCtxState) (args : List HVal) (engineR tid : Nat) :
    (cbType = GETDNS_CALLBACK_COMPLETE →
      hostCallArgLists (gnCallback convert cbType response transId) =
        [[HVal.hNull, convert response, HVal.hBuf (convertToBuffer transId 8)]]) ∧
    (cbType ≠ GETDNS_CALLBACK_COMPLETE →
      hostCallArgLists (gnCallback convert cbType response transId) =
        [[makeErrorObj "Lookup failed." cbType, HVal.hNull,
          HVal.hBuf (convertToBuffer transId 8)]]) ∧
    (convertToBuffer transId 8).length = 8 ∧
    (∀ a ∈ hostCallArgLists (lookup st args engineR tid).events,
      a.length = 1 ∧ ∃ m c, a = [makeErrorObj m c]) := by
  refine ⟨?_, ?_, ?_, ?_⟩
  · intro hc; simp [gnCallback, hc, hostCallArgLists]
  · intro hc; simp [gnCallback, hc, hostCallArgLists]
  · simp [convertToBuffer]
  · obtain ⟨h⟩ := st
    cases h with
    | none =>
        intro a ha
        simp only [lookup, hostCallArgLists, List.foldr] at ha
        simp at ha
        subst ha
        exact ⟨rfl, _, _, rfl⟩
    | some e =>
        intro a ha
        by_cases hn : isNumber (argGet args 1) <;>
          by_cases hr : engineR = GETDNS_RETURN_GOOD <;>
          simp [lookup, hn, hr, hostCallArgLists] at ha <;>
          subst ha <;> exact ⟨rfl, _, _, rfl⟩

/-- C3 amended witness: the completion-kind hypotheses hold and the argument
shapes are as stated at a concrete completion and a concrete synchronous
rejection. -/
theorem c3_callback_argument_shapes_witness :
    hostCallArgLists (gnCallback (fun _ => HVal.hNull) GETDNS_CALLBACK_COMPLETE none 5) =
      [[HVal.hNull, HVal.hNull, HVal.hBuf (convertToBuffer 5 8)]] :=
  (c3_callback_argument_shapes (fun _ => HVal.hNull) GETDNS_CALLBACK_COMPLETE none 5
    ⟨none⟩ [] 0 0).1 rfl

/-- C4 amended: destroy is idempotent — both calls return true, the second
operates on the null engine handle, performs no engine teardown and leaves
the state unchanged — and every lookup call with at least three arguments
whose final argument is callable, made on a destroyed context, delivers the
ContextInvalid error object to that callback without throwing and without
any engine call. -/
theorem c4_destroy_idempotent_and_destroyed_lookup
    (st : GNCtxState) (args : List HVal) (engineR transId : Nat)
    (h3 : 3 ≤ args.length)
    (hf : isFunction (argGet args (args.length - 1)) = true) :
    (destroy st).2.2 = true ∧
    (destroy (destroy st).1).2.2 = true ∧
    (destroy (destroy st).1).1 = (destroy st).1 ∧
    (destroy (destroy st).1).2.1 = [] ∧
    (lookup ⟨none⟩ args engineR transId).events =
      [.callHost [makeErrorObj "Context is invalid" GETDNS_RETURN_GENERIC_ERROR]] ∧
    (lookup ⟨none⟩ args engineR transId).thrown = [] ∧
    (lookup ⟨none⟩ args engineR transId).ret = none := by
  have hlt : ¬ (args.length < 3) := by omega
  exact ⟨rfl, rfl, rfl, rfl, by simp [lookup], by simp [lookup, hlt, hf], by simp [lookup]⟩

/-- C4 amended witness: a well-formed three-argument lookup on a destroyed
context delivers ContextInvalid without throwing. -/
theorem c4_destroyed_lookup_witness :
    3 ≤ ([HVal.hStr "example.com", HVal.hNum 1, HVal.hFunc 0] : List HVal).length ∧
    (lookup ⟨none⟩ [HVal.hStr "example.com", HVal.hNum 1, HVal.hFunc 0] 0 0).thrown = [] :=
  ⟨by decide,
   ((c4_destroy_idempotent_and_destroyed_lookup ⟨none⟩
      [HVal.hStr "example.com", HVal.hNum 1, HVal.hFunc 0] 0 0
      (by decide) rfl).2.2.2.2.2.1)⟩

/-- C5: option dispatch walks the generic table first and a match there is
final — the matched setter is applied to the raw value and the numeric
tables are never consulted, so a name in the generic table always resolves
generically; when the generic table misses, a non-numeric value makes the
whole dispatch a silent no-op; for numeric values the 8-bit table and then
the 16-bit table are consulted, the matched setter receiving the unsigned
32-bit value truncated to the target width with no range check; a name
matching no table is ignored with no error, no engine call and no context
change. -/
theorem c5_option_dispatch_algorithm (P : AddrParser) (ctx : EngineCtx) (value : HVal)
    (name : String) :
    (∀ f, findSetter (SETTERS P) name = some f →
      setContextValue P ctx name value = f ctx value) ∧
    (findSetter (SETTERS P) name = none → isNumber value = false →
      setContextValue P ctx name value = ⟨ctx, [], []⟩) ∧
    (∀ n f, findSetter (SETTERS P) name = none →
      findSetter UINT8_OPTION_SETTERS name = some f →
      setContextValue P ctx name (.hNum n) = f ctx (n % 2 ^ 32 % 2 ^ 8)) ∧
    (∀ n f, findSetter (SETTERS P) name = none →
      findSetter UINT8_OPTION_SETTERS name = none →
      findSetter UINT16_OPTION_SETTERS name = some f →
      setContextValue P ctx name (.hNum n) = f ctx (n % 2 ^ 32 % 2 ^ 16)) ∧
    (findSetter (SETTERS P) name = none →
      findSetter UINT8_OPTION_SETTERS name = none →
      findSetter UINT16_OPTION_SETTERS name = none →
      setContextValue P ctx name value = ⟨ctx, [], []⟩) := by
  refine ⟨?_, ?_, ?_, ?_, ?_⟩
  · intro f hf; simp [setContextValue, hf]
  · intro hg hn; simp [setContextValue, hg, hn]
  · intro n f hg h8; simp [setContextValue, hg, h8, isNumber, uint32Value]
  · intro n f hg h8 h16; simp [setContextValue, hg, h8, h16, isNumber, uint32Value]
  · intro hg h8 h16
    by_cases hn : isNumber value <;> simp [setContextValue, hg, h8, h16, hn]

/-- C5 witness: at a concrete 8-bit option the generic table misses and the
value 300 is truncated to 44 on its way to the engine setter. -/
theorem c5_option_dispatch_witness :
    setContextValue P0 EngineCtx.init "edns_version" (HVal.hNum 300) =
      ⟨{ EngineCtx.init with ednsVersion := some 44 }, [.setEdnsVersion 44], []⟩ := by
  have h := (c5_option_dispatch_algorithm P0 EngineCtx.init (HVal.hNum 300)
      "edns_version").2.2.1 300 _ rfl rfl
  simpa using h

/-- C6 amended: an endpoint-list option applied to a non-array value is a
silent no-op — no engine call, no error, no context change; a boolean option
never raises a type error: it invokes the engine setter on every input,
selecting the non-default state exactly when the value is the boolean true
and the default state otherwise. -/
theorem c6_shape_handling (P : AddrParser) (ctx : EngineCtx) (v : HVal) :
    (isArray v = false → setUpstreams P ctx v = ⟨ctx, [], []⟩) ∧
    (setStub ctx v).thrown = [] ∧
    (setStub ctx v).calls =
      [.setResolutionType
        (if isTrue v then GETDNS_RESOLUTION_STUB else GETDNS_RESOLUTION_RECURSING)] ∧
    (setUseThreads ctx v).thrown = [] ∧
    (setReturnDnssecStatus ctx v).thrown = [] := by
  refine ⟨?_, ?_, ?_, rfl, rfl⟩
  · intro hv; cases v <;> simp_all [setUpstreams, isArray]
  · by_cases ht : isTrue v <;> simp [setStub, ht]
  · by_cases ht : isTrue v <;> simp [setStub, ht]

/-- C6 amended witness: a numeric value supplied to the endpoint-list option
leaves everything untouched. -/
theorem c6_shape_handling_witness :
    isArray (HVal.hNum 5) = false ∧
    setUpstreams P0 EngineCtx.init (HVal.hNum 5) = ⟨EngineCtx.init, [], []⟩ :=
  ⟨rfl, (c6_shape_handling P0 EngineCtx.init (HVal.hNum 5)).1 rfl⟩

/-- C7: cancel short-circuits to false without contacting the engine when the
context is invalid, when no argument was supplied, or when the supplied
buffer does not have length exactly 8; otherwise the 64-bit identifier is
copied out of the buffer, forwarded to the engine's cancellation primitive,
and the result is true exactly when the engine reports success. -/
theorem c7_cancel_contract (st : GNCtxState) (args : List HVal) (ec : Nat → Nat) :
    (st.handle = none → cancel st args ec = ⟨false, none⟩) ∧
    (args = [] → cancel st args ec = ⟨false, none⟩) ∧
    (bufLength (argGet args 0) ≠ 8 → cancel st args ec = ⟨false, none⟩) ∧
    (∀ e bs, st.handle = some e → argGet args 0 = .hBuf bs → bs.length = 8 →
      1 ≤ args.length →
      (cancel st args ec).engineCancelArg = some (bytesToId bs) ∧
      ((cancel st args ec).ret = true ↔ ec (bytesToId bs) = GETDNS_RETURN_GOOD)) := by
  refine ⟨?_, ?_, ?_, ?_⟩
  · intro h; simp [cancel, h]
  · intro h
    subst h
    cases hh : st.handle <;> simp [cancel, hh]
  · intro hb
    cases hh : st.handle with
    | none => simp [cancel, hh]
    | some e =>
        by_cases hl : args.length < 1 <;> simp [cancel, hh, hl, hb]
  · intro e bs hst hbuf hlen h1
    have hl : ¬ (args.length < 1) := by omega
    have hbl : ¬ (bufLength (argGet args 0) ≠ 8) := by simp [hbuf, bufLength, hlen]
    constructor <;> simp [cancel, hst, hl, hbuf, bufLength, hlen]

/-- C7 witness: a well-formed 8-byte buffer is forwarded as its 64-bit value
and the engine verdict is surfaced, while a 2-byte buffer is refused without
engine contact. -/
theorem c7_cancel_witness :
    bytesToId [1, 0, 0, 0, 0, 0, 0, 0] = 1 ∧
    (cancel ⟨some EngineCtx.init⟩ [HVal.hBuf [1, 0, 0, 0, 0, 0, 0, 0]]
      (fun t => if t = 1 then 0 else 1)).engineCancelArg = some 1 ∧
    cancel ⟨some EngineCtx.init⟩ [HVal.hBuf [4, 4]] (fun _ => 0) = ⟨false, none⟩ := by
  refine ⟨rfl, ?_, ?_⟩
  · have h := ((c7_cancel_contract ⟨some EngineCtx.init⟩
        [HVal.hBuf [1, 0, 0, 0, 0, 0, 0, 0]] (fun t => if t = 1 then 0 else 1)).2.2.2
        EngineCtx.init [1, 0, 0, 0, 0, 0, 0, 0] rfl rfl rfl (by decide)).1
    simpa using h
  · exact (c7_cancel_contract ⟨some EngineCtx.init⟩ [HVal.hBuf [4, 4]]
      (fun _ => 0)).2.2.1 (by decide)

/-- C8: endpoint construction parses the address string first as IPv4 and on
success yields the structured map with address_type IPv4 and the 4-byte
address_data blob; otherwise it parses as IPv6 and on success yields
address_type IPv6 with the 16-byte blob; a string matching neither form
yields no endpoint; and a numeric port supplied as the second element of an
(address, port) pair is attached under the key port. -/
theorem c8_endpoint_construction (P : AddrParser)
    (h4 : ∀ s b, P.pton4 s = some b → b.length = 4)
    (h6 : ∀ s b, P.pton6 s = some b → b.length = 16) (ip : String) :
    (∀ b, P.pton4 ip = some b →
      getdns_util_create_ip P ip =
        some [("address_type", GVal.gStr "IPv4"), ("address_data", GVal.gBindata b)] ∧
      b.length = 4) ∧
    (P.pton4 ip = none → ∀ b, P.pton6 ip = some b →
      getdns_util_create_ip P ip =
        some [("address_type", GVal.gStr "IPv6"), ("address_data", GVal.gBindata b)] ∧
      b.length = 16) ∧
    (P.pton4 ip = none → P.pton6 ip = none → getdns_util_create_ip P ip = none) ∧
    (∀ d p rest, isNumber p = true → getdns_util_create_ip P ip = some d →
      upstreamElemToDict P (.hArr (.hStr ip :: p :: rest)) =
        some (dictSet d "port" (.gInt (uint32Value p)))) := by
  refine ⟨?_, ?_, ?_, ?_⟩
  · intro b hb
    exact ⟨by simp [getdns_util_create_ip, hb, dictSet], h4 ip b hb⟩
  · intro h0 b hb
    exact ⟨by simp [getdns_util_create_ip, h0, hb, dictSet], h6 ip b hb⟩
  · intro h0 h60
    simp [getdns_util_create_ip, h0, h60]
  · intro d p rest hp hd
    simp [upstreamElemToDict, toStringH, hd, hp]

/-- C8 witness: the inet_pton contract holds for the concrete parser and the
construction behaves as stated on a known IPv4 literal and a non-address. -/
theorem c8_endpoint_construction_witness :
    getdns_util_create_ip P0 "1.2.3.4" =
      some [("address_type", GVal.gStr "IPv4"), ("address_data", GVal.gBindata [1, 2, 3, 4])] ∧
    getdns_util_create_ip P0 "not-an-ip" = none := by
  have hWF4 : ∀ s b, P0.pton4 s = some b → b.length = 4 := by
    intro s b h
    simp only [P0] at h
    split at h
    · injection h with h2; subst h2; rfl
    · exact Option.noConfusion h
  have hWF6 : ∀ s b, P0.pton6 s = some b → b.length = 16 := by
    intro s b h
    simp only [P0] at h
    split at h
    · injection h with h2; subst h2; rfl
    · exact Option.noConfusion h
  exact ⟨((c8_endpoint_construction P0 hWF4 hWF6 "1.2.3.4").1 [1, 2, 3, 4] rfl).1,
         (c8_endpoint_construction P0 hWF4 hWF6 "not-an-ip").2.2.1 rfl rfl⟩

/-- C9: when the engine rejects a request at issuance time the tracker frees
the CallbackData before the host callback fires, invokes that callback
synchronously with an issuance error carrying the engine's status code, and
returns no transaction id; when the engine accepts, the caller receives the
assigned identifier as an 8-byte buffer — for the generic Lookup and for the
address/service helper paths alike. -/
theorem c9_issuance_outcomes (P : AddrParser) (e : EngineCtx) (args hargs : List HVal)
    (engineR transId : Nat) (hnum : isNumber (argGet args 1) = true) :
    (engineR ≠ GETDNS_RETURN_GOOD →
      (lookup ⟨some e⟩ args engineR transId).ret = none ∧
      hostCallArgLists (lookup ⟨some e⟩ args engineR transId).events =
        [[makeErrorObj "Error issuing query" engineR]] ∧
      countEv Ev.isFreeData ((lookup ⟨some e⟩ args engineR transId).events.takeWhile
        (fun ev => !ev.isCallHost)) = 1) ∧
    (engineR = GETDNS_RETURN_GOOD →
      (lookup ⟨some e⟩ args engineR transId).ret = some (convertToBuffer transId 8) ∧
      (convertToBuffer transId 8).length = 8) ∧
    (∀ ft, ft = GNAddress ∨ ft = GNService → engineR ≠ GETDNS_RETURN_GOOD →
      (helperLookup P ft ⟨some e⟩ hargs engineR transId).ret = none ∧
      hostCallArgLists (helperLookup P ft ⟨some e⟩ hargs engineR transId).events =
        [[makeErrorObj "Error issuing query" engineR]]) ∧
    (∀ ft, ft = GNAddress ∨ ft = GNService → engineR = GETDNS_RETURN_GOOD →
      (helperLookup P ft ⟨some e⟩ hargs engineR transId).ret =
        some (convertToBuffer transId 8)) := by
  refine ⟨?_, ?_, ?_, ?_⟩
  · intro hr
    refine ⟨?_, ?_, ?_⟩ <;>
      simp [lookup, hnum, hr, hostCallArgLists, countEv, List.filter, List.takeWhile,
        Ev.isFreeData, Ev.isCallHost]
  · intro hr
    subst hr
    exact ⟨by simp [lookup, hnum], by simp [convertToBuffer]⟩
  · rintro ft (hft | hft) hr <;> subst hft <;>
      exact ⟨by simp [helperLookup, helperFinish, hr, hostCallArgLists, GNAddress, GNService],
             by simp [helperLookup, helperFinish, hr, hostCallArgLists, GNAddress, GNService]⟩
  · rintro ft (hft | hft) hr <;> subst hft <;>
      simp [helperLookup, helperFinish, hr, GNAddress, GNService]

/-- C9 witness: a rejected issuance returns no identifier and an accepted
helper issuance returns the identifier as a buffer. -/
theorem c9_issuance_witness :
    (lookup ⟨some EngineCtx.init⟩
      [HVal.hStr "example.com", HVal.hNum 1, HVal.hFunc 0] 1 0).ret = none ∧
    (helperLookup P0 GNAddress ⟨some EngineCtx.init⟩
      [HVal.hStr "example.com", HVal.hFunc 0] 0 9).ret = some (convertToBuffer 9 8) :=
  ⟨((c9_issuance_outcomes P0 EngineCtx.init
      [HVal.hStr "example.com", HVal.hNum 1, HVal.hFunc 0]
      [HVal.hStr "example.com", HVal.hFunc 0] 1 0 rfl).1 (by decide)).1,
   (c9_issuance_outcomes P0 EngineCtx.init
      [HVal.hStr "example.com", HVal.hNum 1, HVal.hFunc 0]
      [HVal.hStr "example.com", HVal.hFunc 0] 0 9 rfl).2.2.2 GNAddress (Or.inl rfl) rfl⟩

/-- C10: for every lookup whose second argument is numeric, the record-type
code forwarded to the engine is the argument's unsigned 32-bit value reduced
modulo 2^16, with no positivity or range check — in particular the value 0
is forwarded without any error when the engine accepts. -/
theorem c10_querytype_truncated_mod_65536 (e : EngineCtx) (nm cb : HVal)
    (n engineR transId : Nat) :
    engineIssueTypes (lookup ⟨some e⟩ [nm, .hNum n, cb] engineR transId).events =
      [n % 2 ^ 16] ∧
    (engineR = GETDNS_RETURN_GOOD →
      (lookup ⟨some e⟩ [nm, .hNum n, cb] engineR transId).ret =
        some (convertToBuffer transId 8) ∧
      hostCallArgLists (lookup ⟨some e⟩ [nm, .hNum n, cb] engineR transId).events = []) := by
  constructor
  · by_cases hr : engineR = GETDNS_RETURN_GOOD <;>
      simp [lookup, engineIssueTypes, isNumber, uint32Value, argGet, hr] <;> omega
  · intro hr
    subst hr
    exact ⟨by simp [lookup, isNumber, argGet],
           by simp [lookup, isNumber, argGet, hostCallArgLists]⟩

/-- C10 witness: the query type 65536 wraps to 0 and is forwarded to the
engine without error. -/
theorem c10_querytype_witness :
    engineIssueTypes (lookup ⟨some EngineCtx.init⟩
      [HVal.hStr "example.com", HVal.hNum 65536, HVal.hFunc 0] 0 7).events = [0] ∧
    (lookup ⟨some EngineCtx.init⟩
      [HVal.hStr "example.com", HVal.hNum 65536, HVal.hFunc 0] 0 7).ret =
      some (convertToBuffer 7 8) := by
  have h := c10_querytype_truncated_mod_65536 EngineCtx.init (HVal.hStr "example.com")
      (HVal.hFunc 0) 65536 0 7
  exact ⟨by simpa using h.1, (h.2 rfl).1⟩

end GN
